import Mathlib

/-!
Shallow embedding of the `romio` crypto helper modules
(`src/crypto/vrf_helper.py` and `src/crypto/ed25519_helper.py`).

Modelling conventions:
* Python `bytes` values are `List Nat` (each entry a byte value `< 256`
  whenever it was produced by hex decoding).
* Python `str` hex inputs are `List Char`.
* A Python function that may raise an exception that escapes the function
  is embedded with an `Except` codomain: `Except.error` marks an uncaught
  exception, `Except.ok` a normal return.
* The external cryptographic primitives (`jam_vrf.RingVerifier`,
  `jam_vrf.VRFOutput(...).hash()`, `nacl.signing.VerifyKey(...).verify`)
  are out of scope per the spec and are modelled as opaque deterministic
  oracles packaged in structures (`JamVrf`, `Nacl`); their exceptions are
  abstract `Nat` codes.  A `RingVerifier` instance is identified with the
  `(commitment, ring_size)` pair it was built from.
-/

/-- Exceptions of the embedded Python code.  `fromhexError` is the
`ValueError` raised by `bytes.fromhex` on a non-hex digit or an odd digit
count; `byteRangeError` is the `ValueError` raised by `bytes([n])` when
`n` is not in `range(0, 256)`; `primErr c` is an abstract exception raised
by a `jam_vrf`/`nacl` primitive; `invalidCommitment c` is the
`f"Invalid commitment: {e}"` wrapper produced by the `batch_verify`
command. -/
inductive VErr where
  | fromhexError
  | byteRangeError
  | primErr (code : Nat)
  | invalidCommitment (code : Nat)
deriving DecidableEq

/-- Value of a single hex digit, `none` for a non-hex character
(`bytes.fromhex` accepts `0-9`, `a-f`, `A-F`). -/
def hexDigitVal (c : Char) : Option Nat :=
  if ('0') ≤ c ∧ c ≤ ('9') then some (c.toNat - ('0').toNat)
  else if ('a') ≤ c ∧ c ≤ ('f') then some (c.toNat - ('a').toNat + 10)
  else if ('A') ≤ c ∧ c ≤ ('F') then some (c.toNat - ('A').toNat + 10)
  else none

/-- Decode a list of hex digits two at a time; fails on an odd number of
digits or a non-hex digit (the `ValueError` of `bytes.fromhex`). -/
def fromhexPairs : List Char → Option (List Nat)
  | [] => some []
  | [_] => none
  | c1 :: c2 :: rest =>
    match hexDigitVal c1, hexDigitVal c2, fromhexPairs rest with
    | some h, some l, some tail => some ((16 * h + l) :: tail)
    | _, _, _ => none

/-- `bytes.fromhex`: ASCII spaces are ignored, then the hex digits are
decoded pairwise. -/
def fromhex (s : List Char) : Option (List Nat) :=
  fromhexPairs (s.filter (fun c => c ≠ (' ')))

/-- The `if s.startswith("0x"): s = s[2:]` prefix stripping applied to
every hex input of both helper modules. -/
def strip0x (s : List Char) : List Char :=
  if s.take 2 = [('0'), ('x')] then s.drop 2 else s

/-- `bytes([attempt])` for a Python integer: a single byte, raising
`ValueError` outside `range(0, 256)`. -/
def bytes1 (attempt : Int) : Except VErr Nat :=
  if 0 ≤ attempt ∧ attempt < 256 then Except.ok attempt.toNat
  else Except.error VErr.byteRangeError

/-- Hex character of a value `< 16`, lowercase as in Python `bytes.hex()`. -/
def hexDigitChar (n : Nat) : Char :=
  if n < 10 then Char.ofNat (('0').toNat + n) else Char.ofNat (('a').toNat + n - 10)

/-- Python `bytes.hex()`: two lowercase hex characters per byte. -/
def bytesToHexChars : List Nat → List Char
  | [] => []
  | b :: rest => hexDigitChar (b / 16 % 16) :: hexDigitChar (b % 16) :: bytesToHexChars rest

/-- Oracle for the external `jam_vrf` library.  `ringVerifierNew c n`
models the `jam_vrf.RingVerifier(c, n)` constructor (`Except.error` = the
constructor raised); `ringVerify c n data aux sig` models
`verifier.verify([(data, aux, sig)])` on the verifier built from `(c, n)`;
`vrfOutputHash b` models `jam_vrf.VRFOutput(b).hash()`. -/
structure JamVrf where
  ringVerifierNew : List Nat → Nat → Except Nat Unit
  ringVerify : List Nat → Nat → List Nat → List Nat → List Nat → Except Nat Unit
  vrfOutputHash : List Nat → Except Nat (List Nat)

/-- Oracle for the external PyNaCl library.  `verifyKeyNew pk` models the
`VerifyKey(pk)` constructor; `verify pk msg sig` models
`verify_key.verify(msg, sig)` (`Except.error` = `BadSignatureError` or any
other exception, all of which `verify_ed25519` maps to `False`). -/
structure Nacl where
  verifyKeyNew : List Nat → Except Nat Unit
  verify : List Nat → List Nat → List Nat → Except Nat Unit

namespace Vrf

/-- The ASCII bytes of the domain separation tag `b"jam_ticket_seal"`. -/
def jam_ticket_seal_tag : List Nat :=
  [106, 97, 109, 95, 116, 105, 99, 107, 101, 116, 95, 115, 101, 97, 108]

/-- `b"jam_ticket_seal" + entropy + bytes([attempt])` — the VRF input
transcript built at `vrf_helper.py:70` and `vrf_helper.py:170`. -/
def vrf_input_data (entropy : List Nat) (attempt_byte : Nat) : List Nat :=
  jam_ticket_seal_tag ++ entropy ++ [attempt_byte]

/-- Body of `compute_ticket_id` after the `0x` prefix has been stripped:
decode the hex, take the first 32 bytes as the VRF output point, hash it
with the primitive, return the first 32 bytes of the hash as lowercase
hex (`vrf_helper.py:24-34`). -/
def compute_ticket_id_stripped (vrf : JamVrf) (s : List Char) : Except VErr (List Char) :=
  match fromhex s with
  | none => Except.error VErr.fromhexError
  | some sig_bytes =>
    match vrf.vrfOutputHash (sig_bytes.take 32) with
    | Except.error c => Except.error (VErr.primErr c)
    | Except.ok ticket_id_full => Except.ok (bytesToHexChars (ticket_id_full.take 32))

/-- `compute_ticket_id(signature_hex)` (`vrf_helper.py:10-34`).  May raise
(`Except.error`): nothing in it is wrapped in a `try`. -/
def compute_ticket_id (vrf : JamVrf) (signature_hex : List Char) : Except VErr (List Char) :=
  compute_ticket_id_stripped vrf (strip0x signature_hex)

/-- The `try:` block of `verify_ring_signature` (`vrf_helper.py:73-81`):
build the verifier, verify the single `(data, b"", signature)` triple,
then compute the ticket id from the (already stripped) signature hex. -/
def ring_try_block (vrf : JamVrf) (commitment : List Nat) (ring_size : Nat)
    (data signature : List Nat) (signature_hex : List Char) : Except VErr (List Char) :=
  match vrf.ringVerifierNew commitment ring_size with
  | Except.error c => Except.error (VErr.primErr c)
  | Except.ok _ =>
    match vrf.ringVerify commitment ring_size data [] signature with
    | Except.error c => Except.error (VErr.primErr c)
    | Except.ok _ => compute_ticket_id vrf signature_hex

/-- Outcome of `verify_ring_signature`: the Python pair `(True, ticket_id)`
or `(False, reason)`. -/
inductive VerifyResult where
  | valid (ticket_id : List Char)
  | invalid (reason : VErr)
deriving DecidableEq

/-- Body of `verify_ring_signature` after prefix stripping
(`vrf_helper.py:65-84`).  The three `bytes.fromhex` calls and
`bytes([attempt])` sit before the `try:` block, so their `ValueError`s
escape the function (`Except.error`); every exception inside the `try`
becomes `(False, reason)`. -/
def verify_ring_signature_stripped (vrf : JamVrf) (commitment_hex : List Char)
    (ring_size : Nat) (entropy_hex : List Char) (attempt : Int)
    (signature_hex : List Char) : Except VErr VerifyResult :=
  match fromhex commitment_hex with
  | none => Except.error VErr.fromhexError
  | some commitment =>
    match fromhex entropy_hex with
    | none => Except.error VErr.fromhexError
    | some entropy =>
      match fromhex signature_hex with
      | none => Except.error VErr.fromhexError
      | some signature =>
        match bytes1 attempt with
        | Except.error e => Except.error e
        | Except.ok ab =>
          Except.ok
            (match ring_try_block vrf commitment ring_size
                (vrf_input_data entropy ab) signature signature_hex with
            | Except.ok tid => VerifyResult.valid tid
            | Except.error e => VerifyResult.invalid e)

/-- `verify_ring_signature` (`vrf_helper.py:37-84`): strip the `0x`
prefixes, then run the body. -/
def verify_ring_signature (vrf : JamVrf) (commitment_hex : List Char) (ring_size : Nat)
    (entropy_hex : List Char) (attempt : Int) (signature_hex : List Char) :
    Except VErr VerifyResult :=
  verify_ring_signature_stripped vrf (strip0x commitment_hex) ring_size
    (strip0x entropy_hex) attempt (strip0x signature_hex)

/-- One ticket of the `batch_verify` command input. -/
structure Ticket where
  attempt : Int
  signature : List Char
deriving DecidableEq

/-- Per-item outcome of the `batch_verify` command:
`{"ok": ticket_id}` or `{"error": reason}`. -/
inductive ItemResult where
  | ok (ticket_id : List Char)
  | err (reason : VErr)
deriving DecidableEq

/-- The stdin JSON object of the `batch_verify` command
(`vrf_helper.py:135`). -/
structure BatchInput where
  commitment : List Char
  ring_size : Nat
  entropy : List Char
  tickets : List Ticket
deriving DecidableEq

/-- The per-ticket loop of the `batch_verify` command
(`vrf_helper.py:161-179`).  For each ticket: strip and decode the
signature hex and encode the attempt byte — both OUTSIDE the per-item
`try:`, so their `ValueError`s abort the whole loop (`Except.error`) —
then verify and derive the ticket id inside the `try`, appending
`ok`/`err` per item. -/
def batch_verify_loop (vrf : JamVrf) (commitment : List Nat) (ring_size : Nat)
    (entropy : List Nat) : List Ticket → Except VErr (List ItemResult)
  | [] => Except.ok []
  | t :: rest =>
    match fromhex (strip0x t.signature) with
    | none => Except.error VErr.fromhexError
    | some signature =>
      match bytes1 t.attempt with
      | Except.error e => Except.error e
      | Except.ok ab =>
        let r : ItemResult :=
          match
            (match vrf.ringVerify commitment ring_size (vrf_input_data entropy ab)
                [] signature with
            | Except.error c => Except.error (VErr.primErr c)
            | Except.ok _ => compute_ticket_id vrf (strip0x t.signature)) with
          | Except.ok tid => ItemResult.ok tid
          | Except.error e => ItemResult.err e
        match batch_verify_loop vrf commitment ring_size entropy rest with
        | Except.error e => Except.error e
        | Except.ok tail => Except.ok (r :: tail)

/-- The `batch_verify` command (`vrf_helper.py:133-181`): strip and decode
the commitment and entropy hex (uncaught on failure), build the ring
verifier — on construction failure every ticket is reported as
`Invalid commitment` and the process exits normally — otherwise run the
per-ticket loop. -/
def batch_verify (vrf : JamVrf) (input : BatchInput) : Except VErr (List ItemResult) :=
  match fromhex (strip0x input.commitment) with
  | none => Except.error VErr.fromhexError
  | some commitment =>
    match fromhex (strip0x input.entropy) with
    | none => Except.error VErr.fromhexError
    | some entropy =>
      match vrf.ringVerifierNew commitment input.ring_size with
      | Except.error c =>
        Except.ok (input.tickets.map (fun _ => ItemResult.err (VErr.invalidCommitment c)))
      | Except.ok _ => batch_verify_loop vrf commitment input.ring_size entropy input.tickets

end Vrf

namespace Ed

/-- Body of `verify_ed25519` after the `0x` prefixes are stripped
(`ed25519_helper.py:32-47`).  Everything — hex decoding, key
construction, verification — is inside the `try:`; `BadSignatureError`
returns `False` and any other exception is logged and also returns
`False`, so the function is total with a `Bool` codomain. -/
def verify_ed25519_stripped (nacl : Nacl) (pk mh sh : List Char) : Bool :=
  match fromhex pk with
  | none => false
  | some public_key =>
    match fromhex mh with
    | none => false
    | some message =>
      match fromhex sh with
      | none => false
      | some signature =>
        match nacl.verifyKeyNew public_key with
        | Except.error _ => false
        | Except.ok _ =>
          match nacl.verify public_key message signature with
          | Except.error _ => false
          | Except.ok _ => true

/-- `verify_ed25519` (`ed25519_helper.py:12-47`). -/
def verify_ed25519 (nacl : Nacl) (public_key_hex message_hex signature_hex : List Char) :
    Bool :=
  verify_ed25519_stripped nacl (strip0x public_key_hex) (strip0x message_hex)
    (strip0x signature_hex)

/-- One entry of the `batch_verify` input list
(`{"public_key": hex, "message": hex, "signature": hex}`). -/
structure EdItem where
  public_key : List Char
  message : List Char
  signature : List Char
deriving DecidableEq

/-- `batch_verify` (`ed25519_helper.py:50-64`): the sequential
append loop over the verifications list. -/
def batch_verify (nacl : Nacl) : List EdItem → List Bool
  | [] => []
  | v :: rest =>
    verify_ed25519 nacl v.public_key v.message v.signature :: batch_verify nacl rest

end Ed

/-- A concrete `jam_vrf` oracle on which every primitive succeeds and the
output hash is the identity; used only to instantiate universally
quantified theorems at a concrete input. -/
def allOkVrf : JamVrf where
  ringVerifierNew := fun _ _ => Except.ok ()
  ringVerify := fun _ _ _ _ _ => Except.ok ()
  vrfOutputHash := fun b => Except.ok b

/-- A concrete `jam_vrf` oracle whose `RingVerifier` constructor always
raises (exception code 7); used to instantiate theorems about an invalid
ring commitment. -/
def failCommitVrf : JamVrf where
  ringVerifierNew := fun _ _ => Except.error 7
  ringVerify := fun _ _ _ _ _ => Except.ok ()
  vrfOutputHash := fun b => Except.ok b

/-- A concrete PyNaCl oracle on which every primitive succeeds. -/
def allOkNacl : Nacl where
  verifyKeyNew := fun _ => Except.ok ()
  verify := fun _ _ _ => Except.ok ()

/-- Stripping `0x` from a string that starts with `0x` leaves the rest. -/
theorem strip0x_append_0x (s : List Char) : strip0x (('0') :: ('x') :: s) = s := by
  simp [strip0x]

/-- Stripping is the identity on a string that does not start with `0x`. -/
theorem strip0x_eq_self (s : List Char) (h : s.take 2 ≠ [('0'), ('x')]) :
    strip0x s = s := by
  simp [strip0x, h]

/-- Each byte contributes exactly two hex characters. -/
theorem bytesToHexChars_length (l : List Nat) :
    (bytesToHexChars l).length = 2 * l.length := by
  induction l with
  | nil => rfl
  | cons b rest ih => simp [bytesToHexChars, ih]; omega

/-- C1: for every entropy byte string and every pair of attempt values
encodable as one byte, the ring-verification VRF input transcript is
exactly the ASCII bytes of `"jam_ticket_seal"` followed by the entropy
bytes followed by the single attempt byte; the transcripts for two
attempts agree on everything but the final byte, the tag occupies the
leading positions, and the entropy bytes sit unchanged right after it. -/
theorem c1_transcript_format (entropy : List Nat) (a a2 : Nat)
    (_ha : a < 256) (_ha2 : a2 < 256) :
    Vrf.jam_ticket_seal_tag = ("jam_ticket_seal").toList.map Char.toNat ∧
    Vrf.vrf_input_data entropy a = Vrf.jam_ticket_seal_tag ++ entropy ++ [a] ∧
    (Vrf.vrf_input_data entropy a).dropLast = (Vrf.vrf_input_data entropy a2).dropLast ∧
    (Vrf.vrf_input_data entropy a).getLast? = some a ∧
    (Vrf.vrf_input_data entropy a).take Vrf.jam_ticket_seal_tag.length =
      Vrf.jam_ticket_seal_tag ∧
    ((Vrf.vrf_input_data entropy a).drop Vrf.jam_ticket_seal_tag.length).take
      entropy.length = entropy := by
  refine ⟨by decide, rfl, ?_, ?_, ?_, ?_⟩
  · simp [Vrf.vrf_input_data]
  · simp [Vrf.vrf_input_data]
  · simp [Vrf.vrf_input_data, List.take_append]
  · simp [Vrf.vrf_input_data, List.drop_append, List.take_append]

/-- Concrete instantiation of `c1_transcript_format` at entropy
`[0x11, 0x22]`, attempts `0` and `1`. -/
theorem c1_transcript_format_witness :
    ((0 : Nat) < 256 ∧ (1 : Nat) < 256) ∧
    (Vrf.vrf_input_data [17, 34] 0).dropLast = (Vrf.vrf_input_data [17, 34] 1).dropLast :=
  ⟨by decide, (c1_transcript_format [17, 34] 0 1 (by decide) (by decide)).2.2.1⟩

/-- C3: when the ring verifier constructor raises, the `batch_verify`
command reports every ticket as an `Invalid commitment` error, the result
count equals the ticket count, and no per-ticket work is attempted: the
outcome is the same constant error list for any ticket list whatsoever. -/
theorem c3_invalid_commitment_fails_whole_batch (vrf : JamVrf) (input : Vrf.BatchInput)
    (cb eb : List Nat) (c : Nat)
    (hc : fromhex (strip0x input.commitment) = some cb)
    (he : fromhex (strip0x input.entropy) = some eb)
    (hfail : vrf.ringVerifierNew cb input.ring_size = Except.error c) :
    Vrf.batch_verify vrf input =
      Except.ok (input.tickets.map
        (fun _ => Vrf.ItemResult.err (VErr.invalidCommitment c))) ∧
    (input.tickets.map (fun _ => Vrf.ItemResult.err (VErr.invalidCommitment c))).length =
      input.tickets.length ∧
    ∀ tickets2 : List Vrf.Ticket,
      Vrf.batch_verify vrf { input with tickets := tickets2 } =
        Except.ok (tickets2.map
          (fun _ => Vrf.ItemResult.err (VErr.invalidCommitment c))) := by
  refine ⟨?_, by simp, fun tickets2 => ?_⟩ <;>
    simp [Vrf.batch_verify, hc, he, hfail]

/-- Concrete instantiation of `c3_invalid_commitment_fails_whole_batch`:
a two-ticket batch under the always-failing constructor oracle. -/
theorem c3_invalid_commitment_fails_whole_batch_witness :
    failCommitVrf.ringVerifierNew [170] 6 = Except.error 7 ∧
    Vrf.batch_verify failCommitVrf
        ⟨['a', 'a'], 6, ['b', 'b'], [⟨0, ['c', 'c']⟩, ⟨1, ['d', 'd']⟩]⟩ =
      Except.ok (([⟨0, ['c', 'c']⟩, ⟨1, ['d', 'd']⟩] : List Vrf.Ticket).map
        (fun _ => Vrf.ItemResult.err (VErr.invalidCommitment 7))) :=
  ⟨rfl,
    (c3_invalid_commitment_fails_whole_batch failCommitVrf
      ⟨['a', 'a'], 6, ['b', 'b'], [⟨0, ['c', 'c']⟩, ⟨1, ['d', 'd']⟩]⟩
      [170] [187] 7 rfl rfl rfl).1⟩

/-- C2 fails on the code: with a successfully constructed verifier, a
non-hex signature in the SECOND batch item makes the whole `batch_verify`
command die with an uncaught `ValueError` (the decode at
`vrf_helper.py:166` sits outside the per-item `try:`), so the first,
well-formed item — which alone yields an `ok` result — gets no result at
all. -/
theorem c2_malformed_item_aborts_whole_batch :
    Vrf.batch_verify allOkVrf
        ⟨['a', 'a'], 6, ['b', 'b'], [⟨0, ['c', 'c']⟩, ⟨0, ['z', 'z']⟩]⟩ =
      Except.error VErr.fromhexError ∧
    Vrf.batch_verify allOkVrf ⟨['a', 'a'], 6, ['b', 'b'], [⟨0, ['c', 'c']⟩]⟩ =
      Except.ok [Vrf.ItemResult.ok ['c', 'c']] ∧
    Vrf.batch_verify allOkVrf
        ⟨['a', 'a'], 6, ['b', 'b'], [⟨0, ['c', 'c']⟩, ⟨300, ['d', 'd']⟩]⟩ =
      Except.error VErr.byteRangeError :=
  ⟨rfl, rfl, rfl⟩

/-- C4 fails on the code: `verify_ring_signature` decodes its hex inputs
and encodes the attempt byte BEFORE its `try:` block
(`vrf_helper.py:65-70`), so a non-hex commitment, entropy or signature,
or an attempt outside `range(0, 256)`, raises an uncaught `ValueError`
instead of returning `(False, reason)`. -/
theorem c4_verify_ring_signature_raises_on_malformed_input :
    Vrf.verify_ring_signature allOkVrf ['z', 'z'] 6 ['b', 'b'] 0 ['c', 'c'] =
      Except.error VErr.fromhexError ∧
    Vrf.verify_ring_signature allOkVrf ['a', 'a'] 6 ['b'] 0 ['c', 'c'] =
      Except.error VErr.fromhexError ∧
    Vrf.verify_ring_signature allOkVrf ['a', 'a'] 6 ['b', 'b'] 300 ['c', 'c'] =
      Except.error VErr.byteRangeError :=
  ⟨rfl, rfl, rfl⟩

/-- C6: under hex inputs that decode (so that no uncaught decode error
preempts the call), `verify_ring_signature` returns `(True, ticket_id)`
exactly when verifier construction, ring verification of the transcript,
and ticket-id derivation from the same (stripped) signature hex all
succeed — and when construction or verification fails it returns
`(False, reason)`, exposing no ticket id. -/
theorem c6_ticket_id_only_for_verified_signature (vrf : JamVrf) (ch : List Char)
    (rs : Nat) (eh sh : List Char) (a : Int) (cb eb sb : List Nat) (ab : Nat)
    (hc : fromhex (strip0x ch) = some cb)
    (he : fromhex (strip0x eh) = some eb)
    (hs : fromhex (strip0x sh) = some sb)
    (ha : bytes1 a = Except.ok ab) :
    (∀ tid, Vrf.verify_ring_signature vrf ch rs eh a sh =
        Except.ok (Vrf.VerifyResult.valid tid) ↔
      (vrf.ringVerifierNew cb rs = Except.ok () ∧
       vrf.ringVerify cb rs (Vrf.vrf_input_data eb ab) [] sb = Except.ok () ∧
       Vrf.compute_ticket_id vrf (strip0x sh) = Except.ok tid)) ∧
    (∀ c, vrf.ringVerifierNew cb rs = Except.error c →
      Vrf.verify_ring_signature vrf ch rs eh a sh =
        Except.ok (Vrf.VerifyResult.invalid (VErr.primErr c))) ∧
    (∀ c, vrf.ringVerifierNew cb rs = Except.ok () →
      vrf.ringVerify cb rs (Vrf.vrf_input_data eb ab) [] sb = Except.error c →
      Vrf.verify_ring_signature vrf ch rs eh a sh =
        Except.ok (Vrf.VerifyResult.invalid (VErr.primErr c))) := by
  have hbody : Vrf.verify_ring_signature vrf ch rs eh a sh =
      Except.ok
        (match Vrf.ring_try_block vrf cb rs (Vrf.vrf_input_data eb ab) sb
            (strip0x sh) with
        | Except.ok tid => Vrf.VerifyResult.valid tid
        | Except.error e => Vrf.VerifyResult.invalid e) := by
    simp [Vrf.verify_ring_signature, Vrf.verify_ring_signature_stripped, hc, he, hs, ha]
  refine ⟨fun tid => ?_, fun c hnew => ?_, fun c hnew hver => ?_⟩
  · rw [hbody]
    unfold Vrf.ring_try_block
    cases hnew : vrf.ringVerifierNew cb rs with
    | error c => simp [hnew]
    | ok u =>
      cases u
      cases hver : vrf.ringVerify cb rs (Vrf.vrf_input_data eb ab) [] sb with
      | error c => simp [hver]
      | ok u2 =>
        cases u2
        cases hct : Vrf.compute_ticket_id vrf (strip0x sh) with
        | error e => simp [hct]
        | ok tid2 => simp [hct, eq_comm]
  · rw [hbody]
    unfold Vrf.ring_try_block
    rw [hnew]
  · rw [hbody]
    unfold Vrf.ring_try_block
    rw [hnew, hver]

/-- Concrete instantiation of `c6_ticket_id_only_for_verified_signature`
on the all-success oracle: the valid result appears iff the three success
conditions hold. -/
theorem c6_ticket_id_only_for_verified_signature_witness :
    (fromhex (strip0x ['c', 'c']) = some [204] ∧ bytes1 0 = Except.ok 0) ∧
    (Vrf.verify_ring_signature allOkVrf ['a', 'a'] 1 ['b', 'b'] 0 ['c', 'c'] =
        Except.ok (Vrf.VerifyResult.valid ['c', 'c']) ↔
      (allOkVrf.ringVerifierNew [170] 1 = Except.ok () ∧
       allOkVrf.ringVerify [170] 1 (Vrf.vrf_input_data [187] 0) [] [204] =
         Except.ok () ∧
       Vrf.compute_ticket_id allOkVrf (strip0x ['c', 'c']) = Except.ok ['c', 'c'])) :=
  ⟨⟨rfl, rfl⟩,
    (c6_ticket_id_only_for_verified_signature allOkVrf ['a', 'a'] 1 ['b', 'b']
      ['c', 'c'] 0 [170] [187] [204] 0 rfl rfl rfl rfl).1 ['c', 'c']⟩

/-- C5: `verify_ed25519` is a total `Bool`-valued function that returns
`true` exactly when all three hex fields decode, the verify key
constructs, and the primitive verification succeeds; every malformed
input and every cryptographic failure alike yields `false`, so the two
are externally indistinguishable. -/
theorem c5_verify_ed25519_false_on_malformed_or_invalid (nacl : Nacl)
    (pk mh sh : List Char) :
    (Ed.verify_ed25519 nacl pk mh sh = true ↔
      ∃ pkb mb sb, fromhex (strip0x pk) = some pkb ∧
        fromhex (strip0x mh) = some mb ∧ fromhex (strip0x sh) = some sb ∧
        nacl.verifyKeyNew pkb = Except.ok () ∧
        nacl.verify pkb mb sb = Except.ok ()) ∧
    (Ed.verify_ed25519 nacl pk mh sh = true ∨
      Ed.verify_ed25519 nacl pk mh sh = false) := by
  constructor
  · unfold Ed.verify_ed25519 Ed.verify_ed25519_stripped
    cases hpk : fromhex (strip0x pk) with
    | none => simp
    | some pkb =>
      cases hm : fromhex (strip0x mh) with
      | none => simp
      | some mb =>
        cases hs : fromhex (strip0x sh) with
        | none => simp
        | some sb =>
          cases hk : nacl.verifyKeyNew pkb with
          | error c => simp [hk]
          | ok u =>
            cases u
            cases hv : nacl.verify pkb mb sb with
            | error c => simp [hk, hv]
            | ok u2 =>
              cases u2
              simp [hk, hv]
  · exact Bool.eq_false_or_eq_true (Ed.verify_ed25519 nacl pk mh sh)

/-- C7: `compute_ticket_id` decodes the (stripped) signature hex, takes
the first 32 bytes as the VRF output point, applies the primitive's
output hash, and returns the hash truncated to 32 bytes as hex — 64 hex
characters whenever the hash has at least 32 bytes.  Determinism is
immediate: the embedding is a pure function of its arguments. -/
theorem c7_ticket_id_hash_truncation (vrf : JamVrf) (signature_hex : List Char)
    (sb full : List Nat)
    (hs : fromhex (strip0x signature_hex) = some sb)
    (hh : vrf.vrfOutputHash (sb.take 32) = Except.ok full) :
    Vrf.compute_ticket_id vrf signature_hex =
      Except.ok (bytesToHexChars (full.take 32)) ∧
    (bytesToHexChars (full.take 32)).length = 2 * (full.take 32).length ∧
    (32 ≤ full.length → (bytesToHexChars (full.take 32)).length = 64) := by
  refine ⟨?_, bytesToHexChars_length _, fun h32 => ?_⟩
  · simp [Vrf.compute_ticket_id, Vrf.compute_ticket_id_stripped, hs, hh]
  · rw [bytesToHexChars_length, List.length_take]
    omega

/-- Concrete instantiation of `c7_ticket_id_hash_truncation` on a 32-byte
all-zero signature under the identity-hash oracle. -/
theorem c7_ticket_id_hash_truncation_witness :
    fromhex (strip0x (List.replicate 64 '0')) = some (List.replicate 32 0) ∧
    Vrf.compute_ticket_id allOkVrf (List.replicate 64 '0') =
      Except.ok (bytesToHexChars ((List.replicate 32 (0 : Nat)).take 32)) :=
  ⟨rfl,
    (c7_ticket_id_hash_truncation allOkVrf (List.replicate 64 '0')
      (List.replicate 32 0) (List.replicate 32 0) rfl rfl).1⟩

/-- C8: Ed25519 `batch_verify` maps each triple independently through
`verify_ed25519`: the output has the same length as the input (empty in,
empty out) and its `i`-th entry is exactly `verify_ed25519` of the `i`-th
triple, so no item can affect another and nothing terminates early. -/
theorem c8_ed_batch_verify_pointwise (nacl : Nacl) (vs : List Ed.EdItem) :
    (Ed.batch_verify nacl vs).length = vs.length ∧
    Ed.batch_verify nacl [] = [] ∧
    ∀ i : Nat, (Ed.batch_verify nacl vs)[i]? =
      (vs[i]?).map (fun v => Ed.verify_ed25519 nacl v.public_key v.message v.signature) := by
  have hmap : ∀ l : List Ed.EdItem, Ed.batch_verify nacl l =
      l.map (fun v => Ed.verify_ed25519 nacl v.public_key v.message v.signature) := by
    intro l
    induction l with
    | nil => rfl
    | cons v rest ih => simp [Ed.batch_verify, ih]
  refine ⟨?_, rfl, fun i => ?_⟩ <;> simp [hmap]

/-- C9: for hex fields that do not themselves begin with `0x`, prefixing
`0x` changes neither the decoded bytes nor the outcome of any entry
point: `verify_ed25519`, `verify_ring_signature` and `compute_ticket_id`
give identical results with and without the prefix. -/
theorem c9_0x_prefix_invariance (nacl : Nacl) (vrf : JamVrf)
    (pk mh sh ch eh sg : List Char) (rs : Nat) (a : Int)
    (hpk : pk.take 2 ≠ ['0', 'x']) (hmh : mh.take 2 ≠ ['0', 'x'])
    (hsh : sh.take 2 ≠ ['0', 'x']) (hch : ch.take 2 ≠ ['0', 'x'])
    (heh : eh.take 2 ≠ ['0', 'x']) (hsg : sg.take 2 ≠ ['0', 'x']) :
    fromhex (strip0x (['0', 'x'] ++ sg)) = fromhex (strip0x sg) ∧
    Ed.verify_ed25519 nacl (['0', 'x'] ++ pk) (['0', 'x'] ++ mh) (['0', 'x'] ++ sh) =
      Ed.verify_ed25519 nacl pk mh sh ∧
    Vrf.verify_ring_signature vrf (['0', 'x'] ++ ch) rs (['0', 'x'] ++ eh) a
        (['0', 'x'] ++ sg) =
      Vrf.verify_ring_signature vrf ch rs eh a sg ∧
    Vrf.compute_ticket_id vrf (['0', 'x'] ++ sg) = Vrf.compute_ticket_id vrf sg := by
  refine ⟨?_, ?_, ?_, ?_⟩ <;>
    simp [Ed.verify_ed25519, Vrf.verify_ring_signature, Vrf.compute_ticket_id,
      strip0x_append_0x, strip0x_eq_self _ hpk, strip0x_eq_self _ hmh,
      strip0x_eq_self _ hsh, strip0x_eq_self _ hch, strip0x_eq_self _ heh,
      strip0x_eq_self _ hsg]

/-- Concrete instantiation of `c9_0x_prefix_invariance`: the ticket-id
derivation agrees on `"aa"` and `"0xaa"`. -/
theorem c9_0x_prefix_invariance_witness :
    (['a', 'a'].take 2 ≠ [('0'), ('x')]) ∧
    Vrf.compute_ticket_id allOkVrf (['0', 'x'] ++ ['a', 'a']) =
      Vrf.compute_ticket_id allOkVrf ['a', 'a'] :=
  ⟨by decide,
    (c9_0x_prefix_invariance allOkNacl allOkVrf ['a', 'a'] ['a', 'a'] ['a', 'a']
      ['a', 'a'] ['a', 'a'] ['a', 'a'] 1 0 (by decide) (by decide) (by decide)
      (by decide) (by decide) (by decide)).2.2.2⟩

/-- C10: the ticket id depends only on the first 32 decoded signature
bytes: two signature hex strings whose decodings agree on their first 32
bytes derive the same ticket id, whatever their remaining bytes. -/
theorem c10_ticket_id_first_32_bytes_only (vrf : JamVrf) (s1 s2 : List Char)
    (b1 b2 : List Nat)
    (h1 : fromhex (strip0x s1) = some b1) (h2 : fromhex (strip0x s2) = some b2)
    (h32 : b1.take 32 = b2.take 32) :
    Vrf.compute_ticket_id vrf s1 = Vrf.compute_ticket_id vrf s2 := by
  simp [Vrf.compute_ticket_id, Vrf.compute_ticket_id_stripped, h1, h2, h32]

/-- Concrete instantiation of `c10_ticket_id_first_32_bytes_only`: a
32-byte signature and its 33-byte extension share a ticket id. -/
theorem c10_ticket_id_first_32_bytes_only_witness :
    (List.replicate 32 (170 : Nat)).take 32 =
      (List.replicate 32 (170 : Nat) ++ [187]).take 32 ∧
    Vrf.compute_ticket_id allOkVrf (List.replicate 64 'a') =
      Vrf.compute_ticket_id allOkVrf (List.replicate 64 'a' ++ ['b', 'b']) :=
  ⟨by decide,
    c10_ticket_id_first_32_bytes_only allOkVrf (List.replicate 64 'a')
      (List.replicate 64 'a' ++ ['b', 'b']) (List.replicate 32 170)
      (List.replicate 32 170 ++ [187]) (by decide) (by decide) (by decide)⟩
